import Mathlib

/-!
Shallow embedding of the discbot changer core (src/CChangerLib/{scsi,sbp2,mount}.c
and src/Discbot/Bridging/mount.c) and verification of its specification claims.

Machine integers are modelled as Nat with explicit masking / `% 2^w` where the C
code truncates; byte buffers are `List Nat` read through `b8` (calloc-zeroed
storage makes the out-of-range default 0 faithful); fallible parsers return
Option; the OS services (IOKit registry, DiskArbitration, the SCSI transport)
are external collaborators and appear as explicit oracle inputs describing the
reply the OS delivers, exactly as the C code consumes it.
-/

namespace Discbot

/-- Read byte `i` of a buffer: C reads `uint8_t buf[i]` from a calloc'd array,
so missing positions are 0 and every value is reduced mod 256. -/
def b8 (buf : List Nat) (i : Nat) : Nat := buf.getD i 0 % 256

/-! ## Sense decoder (src/CChangerLib/scsi.c) -/

/-- SenseData from src/CChangerLib/scsi.h lines 43-48. -/
structure SenseData where
  sense_key : Nat
  asc : Nat
  ascq : Nat
  valid : Bool
deriving DecidableEq, Repr

/-- scsi_sense_string, src/CChangerLib/scsi.c lines 21-62.  The C switch with
fall-through inner ifs is flattened into an equivalent if-chain: inside
`case 0x02`, an `asc == 0x04` with ascq outside 0..3 falls through to the
`asc == 0x3A` test (false there) and then to "Not ready". -/
def scsi_sense_string (s : SenseData) : String :=
  if s.valid = false then "No sense data"
  else if s.sense_key = 0x00 then "No sense"
  else if s.sense_key = 0x02 then
    if s.asc = 0x04 ∧ s.ascq = 0x00 then "Not ready, cause not reportable"
    else if s.asc = 0x04 ∧ s.ascq = 0x01 then "Becoming ready"
    else if s.asc = 0x04 ∧ s.ascq = 0x02 then "Need INITIALIZE ELEMENT STATUS"
    else if s.asc = 0x04 ∧ s.ascq = 0x03 then "Manual intervention required"
    else if s.asc = 0x3A then "Medium not present"
    else "Not ready"
  else if s.sense_key = 0x05 then
    if s.asc = 0x21 then "Invalid element address"
    else if s.asc = 0x24 then "Invalid field in CDB"
    else if s.asc = 0x3B ∧ s.ascq = 0x0D then "Medium destination full"
    else if s.asc = 0x3B ∧ s.ascq = 0x0E then "Medium source empty"
    else if s.asc = 0x3B then "Element position error"
    else "Illegal request"
  else if s.sense_key = 0x06 then
    if s.asc = 0x28 then "Medium may have changed"
    else if s.asc = 0x29 then "Power on or reset"
    else "Unit attention"
  else if s.sense_key = 0x0B then
    if s.asc = 0x3B ∧ s.ascq = 0x0D then "Medium destination full"
    else if s.asc = 0x3B ∧ s.ascq = 0x0E then "Medium source empty"
    else if s.asc = 0x3B then "Element position error"
    else "Aborted command"
  else "Unknown error"

/-- Modelled from the spec: the section 4.1 string-mapping table, row by row,
with the one entry the code forces amended from "Needs INITIALIZE ELEMENT
STATUS" to "Need INITIALIZE ELEMENT STATUS".  Rows absent from the table give
`none`; a `*` ascq column is a wildcard. -/
def sense_table_spec (s : SenseData) : Option String :=
  if s.sense_key = 0x00 then some "No sense"
  else if s.sense_key = 0x02 ∧ s.asc = 0x04 ∧ s.ascq = 0x00 then
    some "Not ready, cause not reportable"
  else if s.sense_key = 0x02 ∧ s.asc = 0x04 ∧ s.ascq = 0x01 then
    some "Becoming ready"
  else if s.sense_key = 0x02 ∧ s.asc = 0x04 ∧ s.ascq = 0x02 then
    some "Need INITIALIZE ELEMENT STATUS"
  else if s.sense_key = 0x02 ∧ s.asc = 0x04 ∧ s.ascq = 0x03 then
    some "Manual intervention required"
  else if s.sense_key = 0x02 ∧ s.asc = 0x3A then some "Medium not present"
  else if s.sense_key = 0x05 ∧ s.asc = 0x21 then some "Invalid element address"
  else if s.sense_key = 0x05 ∧ s.asc = 0x24 then some "Invalid field in CDB"
  else if (s.sense_key = 0x05 ∨ s.sense_key = 0x0B) ∧ s.asc = 0x3B ∧ s.ascq = 0x0D then
    some "Medium destination full"
  else if (s.sense_key = 0x05 ∨ s.sense_key = 0x0B) ∧ s.asc = 0x3B ∧ s.ascq = 0x0E then
    some "Medium source empty"
  else if (s.sense_key = 0x05 ∨ s.sense_key = 0x0B) ∧ s.asc = 0x3B then
    some "Element position error"
  else if s.sense_key = 0x06 ∧ s.asc = 0x28 then some "Medium may have changed"
  else if s.sense_key = 0x06 ∧ s.asc = 0x29 then some "Power on or reset"
  else none

/-- parse_sense, src/CChangerLib/scsi.c lines 65-83, acting on the module-level
sense slot.  `valid` is cleared first; on a short or non-fixed-format buffer the
remaining fields are left as the previous failure set them, and for
8 <= len < 13 the key is updated while asc/ascq are retained. -/
def parse_sense (g : SenseData) (buf : List Nat) : SenseData :=
  let g0 : SenseData := { g with valid := false }
  if buf.length < 8 then g0
  else
    let response_code := b8 buf 0 &&& 0x7F
    if response_code ≠ 0x70 ∧ response_code ≠ 0x71 then g0
    else
      let g1 : SenseData := { g0 with sense_key := b8 buf 2 &&& 0x0F }
      let g2 : SenseData := if 13 ≤ buf.length then { g1 with asc := b8 buf 12 } else g1
      let g3 : SenseData := if 14 ≤ buf.length then { g2 with ascq := b8 buf 13 } else g2
      { g3 with valid := true }

/-! ## Connection, backends, CDB routing (src/CChangerLib/sbp2.c) -/

/-- BackendType, src/CChangerLib/sbp2.h lines 12-16. -/
inductive BackendType where
  | noBackend
  | scsitask
  | sbp2
deriving DecidableEq, Repr

/-- ChangerConnection, src/CChangerLib/sbp2.h lines 19-29.  The opaque interface
pointers are modelled by whether they are non-NULL. -/
structure ChangerConnection where
  backend : BackendType
  service : Bool
  scsi_device : Bool
  has_exclusive : Bool
  lun : Bool
  login : Bool
  connected : Bool
deriving DecidableEq, Repr

/-- A release action performed during disconnect, used to observe that the
second disconnect call frees nothing (src/CChangerLib/sbp2.c lines 221-229,
436-448, 538-553). -/
inductive Released where
  | exclusiveAccess
  | scsiDeviceRef
  | sbp2Logout
  | sbp2LoginRef
  | sbp2Dispatcher
  | sbp2LunClose
  | sbp2LunRef
  | serviceRef
deriving DecidableEq, Repr

/-- disconnect_scsitask, src/CChangerLib/sbp2.c lines 221-229. -/
def disconnect_scsitask (c : ChangerConnection) : ChangerConnection × List Released :=
  if c.scsi_device then
    ({ c with scsi_device := false },
     (if c.has_exclusive then [Released.exclusiveAccess] else []) ++ [Released.scsiDeviceRef])
  else (c, [])

/-- disconnect_sbp2, src/CChangerLib/sbp2.c lines 436-448. -/
def disconnect_sbp2 (c : ChangerConnection) : ChangerConnection × List Released :=
  let r1 := if c.login then [Released.sbp2Logout, Released.sbp2LoginRef] else []
  let r2 := if c.lun then [Released.sbp2Dispatcher, Released.sbp2LunClose, Released.sbp2LunRef] else []
  ({ c with login := false, lun := false }, r1 ++ r2)

/-- changer_disconnect, src/CChangerLib/sbp2.c lines 538-553.  Note the backend
tag itself is not reset; idempotence rests on the NULL guards inside the
per-backend teardown. -/
def changer_disconnect (c : ChangerConnection) : ChangerConnection × List Released :=
  let br : ChangerConnection × List Released :=
    match c.backend with
    | BackendType.scsitask => disconnect_scsitask c
    | BackendType.sbp2 => disconnect_sbp2 c
    | BackendType.noBackend => (c, [])
  let sr : ChangerConnection × List Released :=
    if br.1.service then ({ br.1 with service := false }, [Released.serviceRef]) else (br.1, [])
  ({ sr.1 with connected := false }, br.2 ++ sr.2)

/-- The reply the OS transport delivers for one CDB submission: whether the
kernel call itself succeeded, the SCSI task status (0 = GOOD), and the
auto-sense bytes that came with it.  This is the external-oracle input of
execute_cdb_scsitask (src/CChangerLib/sbp2.c lines 231-297). -/
structure DeviceReply where
  kr_ok : Bool
  status : Nat
  sense_key : Nat
  asc : Nat
  ascq : Nat
deriving DecidableEq, Repr

/-- scsi_set_sense, src/CChangerLib/scsi.c lines 14-19: overwrite the single
module-level slot and mark it valid. -/
def scsi_set_sense (g : SenseData) (k a q : Nat) : SenseData :=
  let _ := g
  { sense_key := k, asc := a, ascq := q, valid := true }

/-- scsi_get_last_sense, src/CChangerLib/scsi.c lines 10-12: the accessor takes
no connection argument - a caller holding any ChangerConnection observes the one
process-global slot.  The connection parameter records which connection's user
is observing; the result does not depend on it, which is the point at issue. -/
def scsi_get_last_sense_via (c : ChangerConnection) (g : SenseData) : SenseData :=
  let _ := c
  g

/-- Sense-slot effect and return code of execute_cdb_scsitask,
src/CChangerLib/sbp2.c lines 231-297: on a kernel-level failure sense is stored
only if some sense byte is nonzero; on a non-GOOD task status it is stored
unconditionally; key is masked with 0x0F. -/
def execute_cdb_scsitask (g : SenseData) (r : DeviceReply) : SenseData × Int :=
  if r.kr_ok = false then
    let k := r.sense_key &&& 0x0F
    (if k ≠ 0 ∨ r.asc ≠ 0 ∨ r.ascq ≠ 0 then scsi_set_sense g k r.asc r.ascq else g, -1)
  else if r.status ≠ 0 then
    (scsi_set_sense g (r.sense_key &&& 0x0F) r.asc r.ascq, -1)
  else (g, 0)

/-- Return code of execute_cdb_sbp2, src/CChangerLib/sbp2.c lines 450-510: the
SBP-2 path performs no sense extraction at all; it fails unless the ORB
round-trip completes with the normal-command-status event. -/
def execute_cdb_sbp2_rc (r : DeviceReply) : Int :=
  if r.kr_ok ∧ r.status = 0 then 0 else -1

/-- Where changer_execute_cdb sent the command. -/
inductive CdbDispatch where
  | noDispatch
  | toScsitask
  | toSbp2
deriving DecidableEq, Repr

/-- changer_execute_cdb, src/CChangerLib/sbp2.c lines 555-570: reject when not
connected, otherwise dispatch on the backend tag.  Result: updated global sense
slot, return code, and which backend (if any) was dispatched to. -/
def changer_execute_cdb (g : SenseData) (c : ChangerConnection) (r : DeviceReply) :
    SenseData × Int × CdbDispatch :=
  if c.connected = false then (g, -1, CdbDispatch.noDispatch)
  else
    match c.backend with
    | BackendType.scsitask =>
        let gr := execute_cdb_scsitask g r
        (gr.1, gr.2, CdbDispatch.toScsitask)
    | BackendType.sbp2 => (g, execute_cdb_sbp2_rc r, CdbDispatch.toSbp2)
    | BackendType.noBackend => (g, -1, CdbDispatch.noDispatch)

/-! ## Optical-media locator (src/CChangerLib/mount.c, src/Discbot/Bridging/mount.c) -/

/-- The OS device registry as the locator consumes it: for each optical media
class, the BSD name of the first matched instance, or none when no instance of
that class is registered. -/
structure MediaRegistry where
  dvd : Option String
  cd : Option String
  bd : Option String
deriving DecidableEq, Repr

/-- mount_find_dvd_bsd_name, src/CChangerLib/mount.c lines 65-109: take the
first DVD-class instance; only if none exists, the first CD-class instance;
read its BSD Name.  No Blu-ray query is made. -/
def mount_find_dvd_bsd_name_lib (r : MediaRegistry) : Option String :=
  let service :=
    match r.dvd with
    | some s => some s
    | none => r.cd
  service

/-- mount_find_dvd_bsd_name, src/Discbot/Bridging/mount.c lines 64-147: DVD
query, returning on success; then CD; then Blu-ray. -/
def mount_find_dvd_bsd_name_bridging (r : MediaRegistry) : Option String :=
  match r.dvd with
  | some s => some s
  | none =>
    match r.cd with
    | some s => some s
    | none => r.bd

/-- Modelled from the spec: query DVD, then CD, then Blu-ray, returning the
first matched instance's BSD name, none when no class matches. -/
def locator_spec (r : MediaRegistry) : Option String :=
  List.findSome? id [r.dvd, r.cd, r.bd]

/-! ## Eject (src/CChangerLib/mount.c lines 360-408, src/Discbot/Bridging/mount.c lines 228-259) -/

/-- Options accepted by DADiskEject: the OS API defines only the default
option (the C comment at src/CChangerLib/mount.c line 385 records that
DADiskEject has no force option). -/
inductive DADiskEjectOptions where
  | defaultOption
deriving DecidableEq, Repr

/-- The DiskArbitration layer's behaviour as the eject path consumes it:
whether session then disk creation succeed, and for an issued eject with given
options, the callback's status (none = no callback before the 30 s deadline,
some st = dissenter status st, with 0 for success). -/
structure DAEnv where
  session_ok : Bool
  disk_ok : Bool
  eject_reply : DADiskEjectOptions → Option Int

/-- mount_eject_disc, src/CChangerLib/mount.c lines 360-408: `(void)force;` -
the flag is discarded and kDADiskEjectOptionDefault is passed.  Result is the
return code paired with the option issued (none when no eject was issued). -/
def mount_eject_disc_lib (env : DAEnv) (bsd_name : String) (force : Bool) :
    Int × Option DADiskEjectOptions :=
  let _ := bsd_name
  if env.session_ok = false then (-1, none)
  else if env.disk_ok = false then (-1, none)
  else
    let _ := force
    let options := DADiskEjectOptions.defaultOption
    match env.eject_reply options with
    | none => (-1, some options)
    | some st => (st, some options)

/-- mount_eject_disc, src/Discbot/Bridging/mount.c lines 228-259:
`options = force ? kDADiskEjectOptionDefault : kDADiskEjectOptionDefault` -
both arms are the default option. -/
def mount_eject_disc_bridging (env : DAEnv) (bsd_name : String) (force : Bool) :
    Int × Option DADiskEjectOptions :=
  let _ := bsd_name
  if env.session_ok = false then (-1, none)
  else if env.disk_ok = false then (-1, none)
  else
    let options :=
      if force then DADiskEjectOptions.defaultOption else DADiskEjectOptions.defaultOption
    match env.eject_reply options with
    | none => (-1, some options)
    | some st => (st, some options)

/-! ## MODE SENSE page 0x1D (src/CChangerLib/scsi.c lines 124-199) -/

/-- ElementMap, src/CChangerLib/scsi.h lines 16-23, with the slot array as a
list.  Built from a fresh zero-initialized map as the parsing code assumes. -/
structure ElementMap where
  transport : Nat
  slots : List Nat
  slot_count : Nat
  drive : Nat
  ie : Nat
  has_ie : Bool
deriving DecidableEq, Repr

/-- Offset of the mode page inside the MODE SENSE(10) response:
`8 + block descriptor length` (src/CChangerLib/scsi.c lines 147-148). -/
def ms_page_offset (buf : List Nat) : Nat := 8 + (b8 buf 6 * 256 + b8 buf 7)

/-- Device-reported first storage-element address in a MODE SENSE 0x1D
response (bytes p+4, p+5 with p = page_offset + 2). -/
def ms_first_storage (buf : List Nat) : Nat :=
  b8 buf (ms_page_offset buf + 2 + 4) * 256 + b8 buf (ms_page_offset buf + 2 + 5)

/-- Device-reported number of storage elements in a MODE SENSE 0x1D response
(bytes p+6, p+7 with p = page_offset + 2). -/
def ms_num_storage (buf : List Nat) : Nat :=
  b8 buf (ms_page_offset buf + 2 + 6) * 256 + b8 buf (ms_page_offset buf + 2 + 7)

/-- Response-parsing half of scsi_mode_sense_element, src/CChangerLib/scsi.c
lines 146-198, applied to the 256-byte calloc'd response buffer of a CDB that
returned 0.  `none` models the -1 exits (page would overrun the 256-byte
allocation, wrong page code, or page length below 16).  The slot array holds
`(first_storage + i)` truncated to uint16_t, as the C assignment does; the
fields assigned only under `num_storage > 0` / `num_ie > 0` keep their
zero-initialized values otherwise, expressed as per-field conditionals. -/
def scsi_mode_sense_element (buf : List Nat) : Option ElementMap :=
  let page_offset := ms_page_offset buf
  if 256 < page_offset + 18 then none
  else
    let page_code := b8 buf page_offset &&& 0x3F
    let page_len := b8 buf (page_offset + 1)
    if page_code ≠ 0x1D ∨ page_len < 16 then none
    else
      let p := page_offset + 2
      let transport := b8 buf p * 256 + b8 buf (p + 1)
      let first_storage := b8 buf (p + 4) * 256 + b8 buf (p + 5)
      let num_storage := b8 buf (p + 6) * 256 + b8 buf (p + 7)
      let first_ie := b8 buf (p + 8) * 256 + b8 buf (p + 9)
      let num_ie := b8 buf (p + 10) * 256 + b8 buf (p + 11)
      let drive := b8 buf (p + 12) * 256 + b8 buf (p + 13)
      some
        { transport := transport
          slots :=
            if 0 < num_storage then
              (List.range num_storage).map fun i => (first_storage + i) % 65536
            else []
          slot_count := if 0 < num_storage then num_storage else 0
          drive := drive
          ie := if 0 < num_ie then first_ie else 0
          has_ie := if 0 < num_ie then true else false }

/-! ## READ ELEMENT STATUS (src/CChangerLib/scsi.c lines 201-328) -/

/-- ElementStatus, src/CChangerLib/scsi.h lines 26-32.  The C code assigns
source_valid/source only when the descriptor length is at least 12; the pair is
therefore modelled as optional. -/
structure ElementStatus where
  address : Nat
  full : Bool
  except : Bool
  source_info : Option (Bool × Nat)
deriving DecidableEq, Repr

/-- Allocation size for the READ ELEMENT STATUS response,
src/CChangerLib/scsi.c lines 209-211. -/
def res_alloc (count : Nat) : Nat :=
  let a := 8 + 8 + count * 24
  let a := if a < 4096 then 4096 else a
  if 65535 < a then 65535 else a

/-- Device-reported element count in the READ ELEMENT STATUS response header,
src/CChangerLib/scsi.c line 236. -/
def res_num_elem (buf : List Nat) : Nat := b8 buf 2 * 256 + b8 buf 3

/-- 24-bit report length in the READ ELEMENT STATUS response header,
src/CChangerLib/scsi.c line 237. -/
def res_report_bytes (buf : List Nat) : Nat :=
  b8 buf 5 * 65536 + b8 buf 6 * 256 + b8 buf 7

/-- The all-zero test of src/CChangerLib/scsi.c lines 290-296: the first
`min desc_len 12` bytes of the descriptor at `offset` are all zero. -/
def allZeroAt (buf : List Nat) (offset desc_len : Nat) : Bool :=
  (List.range (min desc_len 12)).all fun i => b8 buf (offset + i) == 0

/-- One populated ElementStatus entry, src/CChangerLib/scsi.c lines 299-309. -/
def mkEntry (buf : List Nat) (offset desc_len : Nat) : ElementStatus :=
  { address := b8 buf offset * 256 + b8 buf (offset + 1)
    full := b8 buf (offset + 2) &&& 0x01 != 0
    except := b8 buf (offset + 2) &&& 0x04 != 0
    source_info :=
      if 12 ≤ desc_len then
        some (b8 buf (offset + 9) &&& 0x80 != 0,
              b8 buf (offset + 10) * 256 + b8 buf (offset + 11))
      else none }

/-- Inner descriptor loop of scsi_read_element_status, src/CChangerLib/scsi.c
lines 280-321, fuel-indexed.  Arguments after the page parameters: fuel,
current offset, remaining output capacity (max_statuses - status_idx).
Returns the entries this page populates, the final offset, and the remaining
capacity.  A descriptor is skipped exactly when its leading bytes are all zero
and the page type is storage (0x02). -/
def parseDescsF (buf : List Nat) (typ desc_len page_end : Nat) :
    Nat → Nat → Nat → List ElementStatus × Nat × Nat
  | 0, offset, rem => ([], offset, rem)
  | fuel + 1, offset, rem =>
    if offset + desc_len ≤ page_end ∧ 0 < rem then
      if desc_len < 2 then ([], page_end, rem)
      else if allZeroAt buf offset desc_len && (typ == 2) then
        parseDescsF buf typ desc_len page_end fuel (offset + desc_len) rem
      else
        let e := mkEntry buf offset desc_len
        let r := parseDescsF buf typ desc_len page_end fuel (offset + desc_len) (rem - 1)
        (e :: r.1, r.2.1, r.2.2)
    else ([], offset, rem)

/-- Outer page loop of scsi_read_element_status, src/CChangerLib/scsi.c lines
259-324, fuel-indexed: read the 8-byte page header, stop on a zero descriptor
length or page byte count, walk the page's descriptors, then continue at the
page end. -/
def parsePagesF (buf : List Nat) (end_ : Nat) :
    Nat → Nat → Nat → List ElementStatus
  | 0, _, _ => []
  | fuel + 1, offset, rem =>
    if offset + 8 ≤ end_ ∧ 0 < rem then
      let typ := b8 buf offset &&& 0x0F
      let desc_len := b8 buf (offset + 2) * 256 + b8 buf (offset + 3)
      let page_bytes := b8 buf (offset + 5) * 65536 + b8 buf (offset + 6) * 256 + b8 buf (offset + 7)
      let off2 := offset + 8
      if desc_len = 0 ∨ page_bytes = 0 then []
      else
        let page_end := min (off2 + page_bytes) end_
        let r := parseDescsF buf typ desc_len page_end fuel off2 rem
        r.1 ++ parsePagesF buf end_ fuel (max r.2.1 page_end) r.2.2
    else []

/-- scsi_read_element_status, src/CChangerLib/scsi.c lines 201-328, from the
point where the transport has replied: `rc` is the changer_execute_cdb result,
`buf` the calloc'd response of `res_alloc count` bytes, `statuses_present`
whether the caller passed an output array.  Returns the C return value paired
with the populated entries.  On rc = 0 the C function returns the populated
count; errors return rc itself. -/
def scsi_read_element_status (rc : Int) (buf : List Nat) (count : Nat)
    (statuses_present : Bool) (max_statuses : Nat) : Int × List ElementStatus :=
  if rc ≠ 0 then (rc, [])
  else
    let rb := res_report_bytes buf
    if rb = 0 then (0, [])
    else if statuses_present = false then (0, [])
    else
      let alloc := res_alloc count
      let end_ := min (8 + rb) alloc
      let es := parsePagesF buf end_ end_ 8 max_statuses
      ((es.length : Int), es)

/-- The 16 leading bytes of a synthetic single-page READ ELEMENT STATUS
response: an 8-byte response header reporting `8 + 12n` report bytes, then an
8-byte element-status page header of the given element type with descriptor
length 12 and page byte count `12n`, where n = descs.length. -/
def respHeader (t : Nat) (descs : List (List Nat)) : List Nat :=
  [0, 0, descs.length / 256 % 256, descs.length % 256, 0,
   0, (8 + 12 * descs.length) / 256 % 256, (8 + 12 * descs.length) % 256,
   t, 0, 0, 12, 0,
   0, (12 * descs.length) / 256 % 256, (12 * descs.length) % 256]

/-- A synthetic single-page READ ELEMENT STATUS response: the 16 header bytes
followed by the descriptors in sequence. -/
def singlePageResponse (t : Nat) (descs : List (List Nat)) : List Nat :=
  respHeader t descs ++ descs.flatten

/-- The first 12 bytes of a descriptor, given as its own byte list, are all
zero. -/
def zero12 (d : List Nat) : Bool :=
  (List.range 12).all fun i => d.getD i 0 == 0

/-- The ElementStatus entry a 12-byte descriptor `d` produces. -/
def descEntry (d : List Nat) : ElementStatus :=
  { address := d.getD 0 0 * 256 + d.getD 1 0
    full := d.getD 2 0 &&& 0x01 != 0
    except := d.getD 2 0 &&& 0x04 != 0
    source_info := some (d.getD 9 0 &&& 0x80 != 0, d.getD 10 0 * 256 + d.getD 11 0) }

/-- A connected kernel-task-backend connection (exclusive access held). -/
def connA : ChangerConnection :=
  ⟨BackendType.scsitask, true, true, true, false, false, true⟩

/-- A second, distinct connected kernel-task-backend connection. -/
def connB : ChangerConnection :=
  ⟨BackendType.scsitask, true, true, false, false, false, true⟩

/-! ## Claims -/

/-- Claim C1, counterexample.  The claim says a CDB failing on connection A and
storing sense leaves the last sense observable for a distinct connection B
unchanged.  The slot is the module-level `g_last_sense`
(src/CChangerLib/scsi.c line 8): a failing CDB on A with sense 05/3B/0E changes
what B observes through the only accessor there is. -/
theorem c1_counterexample :
    connA ≠ connB ∧
    (changer_execute_cdb ⟨0, 0, 0, false⟩ connA ⟨true, 2, 5, 0x3B, 0x0E⟩).2.1 = -1 ∧
    scsi_get_last_sense_via connB
        (changer_execute_cdb ⟨0, 0, 0, false⟩ connA ⟨true, 2, 5, 0x3B, 0x0E⟩).1 ≠
      scsi_get_last_sense_via connB ⟨0, 0, 0, false⟩ :=
  ⟨by decide, by decide, by decide⟩

/-- Claim C1, amended: the last-sense slot is a single module-level global
shared by all ChangerConnections; a CDB that fails with non-GOOD status on any
connected kernel-task connection A overwrites the last sense observed through
every connection B (instead of leaving B's observation unchanged). -/
theorem c1_theorem (g : SenseData) (A B : ChangerConnection) (r : DeviceReply)
    (hconn : A.connected = true) (hback : A.backend = BackendType.scsitask)
    (hkr : r.kr_ok = true) (hst : r.status ≠ 0) :
    scsi_get_last_sense_via B (changer_execute_cdb g A r).1 =
      { sense_key := r.sense_key &&& 0x0F, asc := r.asc, ascq := r.ascq, valid := true } := by
  simp [changer_execute_cdb, hconn, hback, execute_cdb_scsitask, hkr, hst,
    scsi_get_last_sense_via, scsi_set_sense]

/-- Claim C1, witness for the amended theorem at connections connA, connB and a
CHECK CONDITION reply with sense 05/3B/0E. -/
theorem c1_witness :
    connA.connected = true ∧ connA.backend = BackendType.scsitask ∧
    (⟨true, 2, 5, 0x3B, 0x0E⟩ : DeviceReply).kr_ok = true ∧
    (⟨true, 2, 5, 0x3B, 0x0E⟩ : DeviceReply).status ≠ 0 ∧
    scsi_get_last_sense_via connB
        (changer_execute_cdb ⟨0, 0, 0, false⟩ connA ⟨true, 2, 5, 0x3B, 0x0E⟩).1 =
      { sense_key := 5 &&& 0x0F, asc := 0x3B, ascq := 0x0E, valid := true } :=
  ⟨by decide, by decide, by decide, by decide,
   c1_theorem ⟨0, 0, 0, false⟩ connA connB ⟨true, 2, 5, 0x3B, 0x0E⟩
     (by decide) (by decide) (by decide) (by decide)⟩

/-- Claim C2, counterexample.  For sense 02/04/02 the code returns
"Need INITIALIZE ELEMENT STATUS" (src/CChangerLib/scsi.c line 34), not the
"Needs INITIALIZE ELEMENT STATUS" of the claim's table. -/
theorem c2_counterexample :
    scsi_sense_string ⟨0x02, 0x04, 0x02, true⟩ = "Need INITIALIZE ELEMENT STATUS" ∧
    scsi_sense_string ⟨0x02, 0x04, 0x02, true⟩ ≠ "Needs INITIALIZE ELEMENT STATUS" := by
  exact ⟨rfl, by decide⟩

/-- Claim C2, amended: for every valid SenseData whose triple the section 4.1
table covers, scsi_sense_string returns exactly the table's string, with the
02/04/02 row read as "Need INITIALIZE ELEMENT STATUS" (the source string)
rather than "Needs INITIALIZE ELEMENT STATUS"; in particular 02/04/02 maps to
"Need INITIALIZE ELEMENT STATUS" and 05/3B/0E to "Medium source empty". -/
theorem c2_theorem (s : SenseData) (str : String)
    (hv : s.valid = true) (ht : sense_table_spec s = some str) :
    scsi_sense_string s = str := by
  obtain ⟨k, a, q, v⟩ := s
  subst hv
  unfold sense_table_spec at ht
  dsimp only at ht
  by_cases h1 : k = 0
  · rw [if_pos h1] at ht
    injection ht with h; subst h; subst h1; rfl
  rw [if_neg h1] at ht
  by_cases h2 : k = 2 ∧ a = 4 ∧ q = 0
  · rw [if_pos h2] at ht
    injection ht with h; subst h
    obtain ⟨hk, ha, hq⟩ := h2; subst hk; subst ha; subst hq; rfl
  rw [if_neg h2] at ht
  by_cases h3 : k = 2 ∧ a = 4 ∧ q = 1
  · rw [if_pos h3] at ht
    injection ht with h; subst h
    obtain ⟨hk, ha, hq⟩ := h3; subst hk; subst ha; subst hq; rfl
  rw [if_neg h3] at ht
  by_cases h4 : k = 2 ∧ a = 4 ∧ q = 2
  · rw [if_pos h4] at ht
    injection ht with h; subst h
    obtain ⟨hk, ha, hq⟩ := h4; subst hk; subst ha; subst hq; rfl
  rw [if_neg h4] at ht
  by_cases h5 : k = 2 ∧ a = 4 ∧ q = 3
  · rw [if_pos h5] at ht
    injection ht with h; subst h
    obtain ⟨hk, ha, hq⟩ := h5; subst hk; subst ha; subst hq; rfl
  rw [if_neg h5] at ht
  by_cases h6 : k = 2 ∧ a = 58
  · rw [if_pos h6] at ht
    injection ht with h; subst h
    obtain ⟨hk, ha⟩ := h6; subst hk; subst ha; rfl
  rw [if_neg h6] at ht
  by_cases h7 : k = 5 ∧ a = 33
  · rw [if_pos h7] at ht
    injection ht with h; subst h
    obtain ⟨hk, ha⟩ := h7; subst hk; subst ha; rfl
  rw [if_neg h7] at ht
  by_cases h8 : k = 5 ∧ a = 36
  · rw [if_pos h8] at ht
    injection ht with h; subst h
    obtain ⟨hk, ha⟩ := h8; subst hk; subst ha; rfl
  rw [if_neg h8] at ht
  by_cases h9 : (k = 5 ∨ k = 11) ∧ a = 59 ∧ q = 13
  · rw [if_pos h9] at ht
    injection ht with h; subst h
    obtain ⟨hk, ha, hq⟩ := h9
    subst ha; subst hq
    rcases hk with hk | hk <;> subst hk <;> rfl
  rw [if_neg h9] at ht
  by_cases h10 : (k = 5 ∨ k = 11) ∧ a = 59 ∧ q = 14
  · rw [if_pos h10] at ht
    injection ht with h; subst h
    obtain ⟨hk, ha, hq⟩ := h10
    subst ha; subst hq
    rcases hk with hk | hk <;> subst hk <;> rfl
  rw [if_neg h10] at ht
  by_cases h11 : (k = 5 ∨ k = 11) ∧ a = 59
  · rw [if_pos h11] at ht
    injection ht with h; subst h
    obtain ⟨hk, ha⟩ := h11
    subst ha
    have hq13 : q ≠ 13 := fun hq => h9 ⟨hk, rfl, hq⟩
    have hq14 : q ≠ 14 := fun hq => h10 ⟨hk, rfl, hq⟩
    rcases hk with hk | hk <;> subst hk <;>
      · unfold scsi_sense_string
        dsimp only
        rw [if_neg (show ¬(59 = 59 ∧ q = 13) from fun hc => hq13 hc.2),
          if_neg (show ¬(59 = 59 ∧ q = 13) from fun hc => hq13 hc.2),
          if_neg (show ¬(59 = 59 ∧ q = 14) from fun hc => hq14 hc.2),
          if_neg (show ¬(59 = 59 ∧ q = 14) from fun hc => hq14 hc.2)]
        rfl
  rw [if_neg h11] at ht
  by_cases h12 : k = 6 ∧ a = 40
  · rw [if_pos h12] at ht
    injection ht with h; subst h
    obtain ⟨hk, ha⟩ := h12; subst hk; subst ha; rfl
  rw [if_neg h12] at ht
  by_cases h13 : k = 6 ∧ a = 41
  · rw [if_pos h13] at ht
    injection ht with h; subst h
    obtain ⟨hk, ha⟩ := h13; subst hk; subst ha; rfl
  rw [if_neg h13] at ht
  exact Option.noConfusion ht

/-- Claim C2, witness for the amended theorem at the two triples the claim
singles out: 02/04/02 and 05/3B/0E. -/
theorem c2_witness :
    ((⟨0x02, 0x04, 0x02, true⟩ : SenseData).valid = true ∧
      sense_table_spec ⟨0x02, 0x04, 0x02, true⟩ = some "Need INITIALIZE ELEMENT STATUS" ∧
      scsi_sense_string ⟨0x02, 0x04, 0x02, true⟩ = "Need INITIALIZE ELEMENT STATUS") ∧
    ((⟨0x05, 0x3B, 0x0E, true⟩ : SenseData).valid = true ∧
      sense_table_spec ⟨0x05, 0x3B, 0x0E, true⟩ = some "Medium source empty" ∧
      scsi_sense_string ⟨0x05, 0x3B, 0x0E, true⟩ = "Medium source empty") :=
  ⟨⟨rfl, rfl, c2_theorem ⟨0x02, 0x04, 0x02, true⟩ _ rfl rfl⟩,
   ⟨rfl, rfl, c2_theorem ⟨0x05, 0x3B, 0x0E, true⟩ _ rfl rfl⟩⟩

/-- Claim C7: disconnect is idempotent - a second changer_disconnect on the
same connection releases nothing and leaves the state unchanged - and after
disconnect every changer_execute_cdb returns the transport-unavailable error
(-1) without dispatching to a backend. -/
theorem c7_theorem (c : ChangerConnection) (g : SenseData) (r : DeviceReply) :
    changer_disconnect (changer_disconnect c).1 = ((changer_disconnect c).1, []) ∧
    changer_execute_cdb g (changer_disconnect c).1 r = (g, -1, CdbDispatch.noDispatch) := by
  obtain ⟨b, sv, sd, he, lu, lg, cn⟩ := c
  cases b <;> cases sv <;> cases sd <;> cases he <;> cases lu <;> cases lg <;> cases cn <;>
    exact ⟨rfl, rfl⟩

/-- Claim C8: eject_disc does not honour its force flag - in both
implementations, for every DiskArbitration environment and device identifier,
the force = true and force = false runs issue the same (default-option) eject
and return the same result. -/
theorem c8_theorem (env : DAEnv) (bsd_name : String) :
    mount_eject_disc_lib env bsd_name true = mount_eject_disc_lib env bsd_name false ∧
    mount_eject_disc_bridging env bsd_name true = mount_eject_disc_bridging env bsd_name false :=
  ⟨rfl, rfl⟩

/-- Claim C9: with a NULL output array and a successful command,
scsi_read_element_status returns 0 and populates nothing, whatever the
response buffer reports (the scsi.h comment says it "just returns count"; the
code returns 0 at src/CChangerLib/scsi.c lines 249-252). -/
theorem c9_theorem (buf : List Nat) (count max_statuses : Nat) :
    scsi_read_element_status 0 buf count false max_statuses = (0, []) := by
  unfold scsi_read_element_status
  simp

/-- Claim C10: a fixed-format sense buffer (response code 0x70 or 0x71) of
length at least 8 but less than 13 makes the stored last sense valid with the
new key while asc and ascq retain the previous failure's values
(src/CChangerLib/scsi.c lines 75-81 only assign them when len >= 13 / 14). -/
theorem c10_theorem (g : SenseData) (buf : List Nat)
    (h8 : 8 ≤ buf.length) (h13 : buf.length < 13)
    (hrc : b8 buf 0 &&& 0x7F = 0x70 ∨ b8 buf 0 &&& 0x7F = 0x71) :
    parse_sense g buf =
      { sense_key := b8 buf 2 &&& 0x0F, asc := g.asc, ascq := g.ascq, valid := true } := by
  have h1 : ¬ buf.length < 8 := by omega
  have h2 : ¬ (b8 buf 0 &&& 0x7F ≠ 0x70 ∧ b8 buf 0 &&& 0x7F ≠ 0x71) := by tauto
  have h3 : ¬ 13 ≤ buf.length := by omega
  have h4 : ¬ 14 ≤ buf.length := by omega
  simp [parse_sense, h1, h2, h3, h4]

/-- Claim C10, witness: an 8-byte 0x70 sense buffer with key 5, applied over a
slot still holding asc 0x3B, ascq 0x0E from an earlier failure. -/
theorem c10_witness :
    8 ≤ ([0x70, 0, 0x05, 0, 0, 0, 0, 0] : List Nat).length ∧
    ([0x70, 0, 0x05, 0, 0, 0, 0, 0] : List Nat).length < 13 ∧
    (b8 [0x70, 0, 0x05, 0, 0, 0, 0, 0] 0 &&& 0x7F = 0x70 ∨
      b8 [0x70, 0, 0x05, 0, 0, 0, 0, 0] 0 &&& 0x7F = 0x71) ∧
    parse_sense ⟨2, 0x3B, 0x0E, true⟩ [0x70, 0, 0x05, 0, 0, 0, 0, 0] =
      { sense_key := b8 [0x70, 0, 0x05, 0, 0, 0, 0, 0] 2 &&& 0x0F,
        asc := 0x3B, ascq := 0x0E, valid := true } :=
  ⟨by decide, by decide, by decide,
   c10_theorem ⟨2, 0x3B, 0x0E, true⟩ [0x70, 0, 0x05, 0, 0, 0, 0, 0]
     (by decide) (by decide) (by decide)⟩

/-- Claim C4, counterexample.  With only Blu-ray media registered, the
CChangerLib locator (which queries only the DVD and CD classes,
src/CChangerLib/mount.c lines 65-109) returns none, while the claimed
three-query locator returns the Blu-ray instance's BSD name. -/
theorem c4_counterexample :
    mount_find_dvd_bsd_name_lib ⟨none, none, some "disk3"⟩ = none ∧
    locator_spec ⟨none, none, some "disk3"⟩ = some "disk3" ∧
    (none : Option String) ≠ some "disk3" := by
  refine ⟨rfl, rfl, by simp⟩

/-- Claim C4, amended: the Discbot/Bridging locator queries DVD, CD, Blu-ray
in that order and returns the first matched instance's BSD name (none when no
class matches); the CChangerLib locator performs only the DVD and CD queries,
so it coincides with the three-query locator on a registry without Blu-ray
media and misses Blu-ray-only registries. -/
theorem c4_theorem (r : MediaRegistry) :
    mount_find_dvd_bsd_name_bridging r = locator_spec r ∧
    mount_find_dvd_bsd_name_lib r = locator_spec ⟨r.dvd, r.cd, none⟩ := by
  obtain ⟨d, c, b⟩ := r
  cases d <;> cases c <;> cases b <;>
    simp [mount_find_dvd_bsd_name_bridging, mount_find_dvd_bsd_name_lib, locator_spec,
      List.findSome?]

/-- Reading index `i < n` of `(List.range n).map f` with any default gives
`f i`. -/
theorem getD_range_map (f : Nat → Nat) (n i : Nat) (h : i < n) :
    ((List.range n).map f).getD i 0 = f i := by
  have hl : i < ((List.range n).map f).length := by
    simpa using h
  rw [List.getD_eq_getElem _ _ hl]
  simp

/-- The MODE SENSE response used by the C5 counterexample: zero block
descriptor length, page 0x1D of length 16, transport 0x00E0, first storage
0xFFFF, 2 storage slots, no import/export element, drive 0x0100. -/
def c5xbuf : List Nat :=
  [0, 0, 0, 0, 0, 0, 0, 0,
   0x1D, 16,
   0, 0xE0, 0, 1, 0xFF, 0xFF, 0, 2, 0, 0, 0, 0, 1, 0, 0, 1]

/-- Claim C5, counterexample.  The claim asserts `slots[i] = first_storage + i`
and `slots[i] - slots[0] = i`.  The C assignment truncates to uint16_t
(src/CChangerLib/scsi.c line 188, `uint16_t *slots`): a valid response with
first_storage = 0xFFFF and num_storage = 2 yields slots[1] = 0, which is
neither 0xFFFF + 1 nor at distance 1 from slots[0]. -/
theorem c5_counterexample :
    scsi_mode_sense_element c5xbuf =
      some ⟨0xE0, [0xFFFF, 0], 2, 0x100, 0, false⟩ ∧
    ms_first_storage c5xbuf = 0xFFFF ∧
    ([0xFFFF, 0] : List Nat).getD 1 0 ≠ ms_first_storage c5xbuf + 1 ∧
    ([0xFFFF, 0] : List Nat).getD 1 0 - ([0xFFFF, 0] : List Nat).getD 0 0 ≠ 1 :=
  ⟨by decide, by decide, by decide, by decide⟩

/-- Claim C5, amended: for every valid MODE SENSE page 0x1D response the built
ElementMap has `slot_count` equal to the device-reported storage count and
`slots[i] = (first_storage + i) mod 2^16` (the uint16_t truncation of the C
store) for every `i < slot_count`. -/
theorem c5_theorem (buf : List Nat) (m : ElementMap)
    (h : scsi_mode_sense_element buf = some m) :
    m.slot_count = ms_num_storage buf ∧
    ∀ i < m.slot_count, m.slots.getD i 0 = (ms_first_storage buf + i) % 65536 := by
  rw [ms_num_storage, ms_first_storage]
  unfold scsi_mode_sense_element at h
  dsimp only at h
  by_cases h1 : 256 < ms_page_offset buf + 18
  · rw [if_pos h1] at h; exact Option.noConfusion h
  rw [if_neg h1] at h
  by_cases h2 : b8 buf (ms_page_offset buf) &&& 0x3F ≠ 0x1D ∨ b8 buf (ms_page_offset buf + 1) < 16
  · rw [if_pos h2] at h; exact Option.noConfusion h
  rw [if_neg h2] at h
  injection h with h
  subst h
  by_cases hs : 0 < b8 buf (ms_page_offset buf + 2 + 6) * 256 + b8 buf (ms_page_offset buf + 2 + 7)
  · refine ⟨by dsimp only; rw [if_pos hs], ?_⟩
    intro i hi
    dsimp only at hi ⊢
    rw [if_pos hs] at hi
    rw [if_pos hs, getD_range_map _ _ _ hi]
  · refine ⟨by dsimp only; rw [if_neg hs]; omega, ?_⟩
    intro i hi
    dsimp only at hi
    rw [if_neg hs] at hi
    exact absurd hi (by omega)

/-- The well-formed MODE SENSE response used by the C5 witness: transport
0x00E0, first storage 3, 2 storage slots, no import/export element, drive
0x0100. -/
def c5wbuf : List Nat :=
  [0, 0, 0, 0, 0, 0, 0, 0,
   0x1D, 16,
   0, 0xE0, 0, 1, 0, 3, 0, 2, 0, 0, 0, 0, 1, 0, 0, 1]

/-- Claim C5, witness for the amended theorem at a concrete response with
first_storage 3 and two slots. -/
theorem c5_witness :
    scsi_mode_sense_element c5wbuf = some ⟨0xE0, [3, 4], 2, 0x100, 0, false⟩ ∧
    ((⟨0xE0, [3, 4], 2, 0x100, 0, false⟩ : ElementMap).slot_count = ms_num_storage c5wbuf ∧
     ∀ i < (⟨0xE0, [3, 4], 2, 0x100, 0, false⟩ : ElementMap).slot_count,
       (⟨0xE0, [3, 4], 2, 0x100, 0, false⟩ : ElementMap).slots.getD i 0 =
         (ms_first_storage c5wbuf + i) % 65536) :=
  ⟨by decide, c5_theorem c5wbuf ⟨0xE0, [3, 4], 2, 0x100, 0, false⟩ (by decide)⟩

/-- The descriptor loop consumes exactly one unit of output capacity per
populated entry: entries produced plus capacity left equals capacity in. -/
theorem parseDescsF_count (buf : List Nat) (typ desc_len page_end : Nat) :
    ∀ (fuel offset rem : Nat),
      (parseDescsF buf typ desc_len page_end fuel offset rem).1.length +
        (parseDescsF buf typ desc_len page_end fuel offset rem).2.2 = rem := by
  intro fuel
  induction fuel with
  | zero => intro offset rem; simp [parseDescsF]
  | succ fuel ih =>
    intro offset rem
    rw [parseDescsF]
    by_cases hg : offset + desc_len ≤ page_end ∧ 0 < rem
    · rw [if_pos hg]
      by_cases hd : desc_len < 2
      · rw [if_pos hd]; simp
      rw [if_neg hd]
      by_cases hz : (allZeroAt buf offset desc_len && (typ == 2)) = true
      · rw [if_pos hz]
        exact ih (offset + desc_len) rem
      · rw [if_neg hz]
        dsimp only
        have h1 := ih (offset + desc_len) (rem - 1)
        simp only [List.length_cons]
        omega
    · rw [if_neg hg]; simp

/-- The page loop populates at most `rem` entries. -/
theorem parsePagesF_count (buf : List Nat) (end_ : Nat) :
    ∀ (fuel offset rem : Nat),
      (parsePagesF buf end_ fuel offset rem).length ≤ rem := by
  intro fuel
  induction fuel with
  | zero => intro offset rem; simp [parsePagesF]
  | succ fuel ih =>
    intro offset rem
    rw [parsePagesF]
    by_cases hg : offset + 8 ≤ end_ ∧ 0 < rem
    swap
    · rw [if_neg hg]; simp
    rw [if_pos hg]
    dsimp only
    by_cases hz : b8 buf (offset + 2) * 256 + b8 buf (offset + 3) = 0 ∨
        b8 buf (offset + 5) * 65536 + b8 buf (offset + 6) * 256 + b8 buf (offset + 7) = 0
    · rw [if_pos hz]; simp
    · rw [if_neg hz]
      simp only [List.length_append]
      have h1 := parseDescsF_count buf (b8 buf offset &&& 0x0F)
        (b8 buf (offset + 2) * 256 + b8 buf (offset + 3))
        (min (offset + 8 + (b8 buf (offset + 5) * 65536 + b8 buf (offset + 6) * 256 + b8 buf (offset + 7))) end_)
        fuel (offset + 8) rem
      have h2 := ih (max (parseDescsF buf (b8 buf offset &&& 0x0F)
          (b8 buf (offset + 2) * 256 + b8 buf (offset + 3))
          (min (offset + 8 + (b8 buf (offset + 5) * 65536 + b8 buf (offset + 6) * 256 + b8 buf (offset + 7))) end_)
          fuel (offset + 8) rem).2.1
          (min (offset + 8 + (b8 buf (offset + 5) * 65536 + b8 buf (offset + 6) * 256 + b8 buf (offset + 7))) end_))
        ((parseDescsF buf (b8 buf offset &&& 0x0F)
          (b8 buf (offset + 2) * 256 + b8 buf (offset + 3))
          (min (offset + 8 + (b8 buf (offset + 5) * 65536 + b8 buf (offset + 6) * 256 + b8 buf (offset + 7))) end_)
          fuel (offset + 8) rem).2.2)
      omega

/-- Claim C3, amended: the number of entries scsi_read_element_status
populates never exceeds max_statuses.  (The device-reported element count in
the response header does not bound it - see the counterexample.) -/
theorem c3_theorem (rc : Int) (buf : List Nat) (count : Nat)
    (statuses_present : Bool) (max_statuses : Nat) :
    ((scsi_read_element_status rc buf count statuses_present max_statuses).2).length ≤
      max_statuses := by
  unfold scsi_read_element_status
  by_cases h1 : rc ≠ 0
  · rw [if_pos h1]; simp
  rw [if_neg h1]
  dsimp only
  by_cases h2 : res_report_bytes buf = 0
  · rw [if_pos h2]; simp
  rw [if_neg h2]
  by_cases h3 : statuses_present = false
  · rw [if_pos h3]; simp
  rw [if_neg h3]
  dsimp only
  exact parsePagesF_count buf _ _ 8 _

/-- A READ ELEMENT STATUS response whose header reports one element but whose
single transport page carries two 12-byte descriptors within the reported 32
report bytes. -/
def c3xbuf : List Nat :=
  [0, 0, 0, 1, 0, 0, 0, 32,
   1, 0, 0, 12, 0, 0, 0, 24,
   0, 16, 1, 0, 0, 0, 0, 0, 0, 0, 0, 0,
   0, 17, 0, 0, 0, 0, 0, 0, 0, 0, 0, 0]

/-- Claim C3, counterexample.  The parser walks `report_bytes`, never
consulting the header's element count (src/CChangerLib/scsi.c line 236 reads
it only for logging): on `c3xbuf` it populates 2 entries while the
device-reported element count is 1, refuting "at most the device-reported
element count". -/
theorem c3_counterexample :
    ((scsi_read_element_status 0 c3xbuf 0 true 10).2).length = 2 ∧
    res_num_elem c3xbuf = 1 ∧ ¬ (2 : Nat) ≤ 1 :=
  ⟨by decide, by decide, by decide⟩

theorem respHeader_length (t : Nat) (descs : List (List Nat)) :
    (respHeader t descs).length = 16 := rfl

/-- Reading past a prefix indexes into the suffix. -/
theorem b8_append_add (pre l : List Nat) (i : Nat) :
    b8 (pre ++ l) (pre.length + i) = b8 l i := by
  unfold b8
  rw [List.getD_append_right _ _ _ _ (by omega)]
  have h : pre.length + i - pre.length = i := by omega
  rw [h]

/-- List.all is determined pointwise. -/
theorem list_all_congr {α : Type} (p q : α → Bool) :
    ∀ xs : List α, (∀ y ∈ xs, p y = q y) → xs.all p = xs.all q
  | [], _ => rfl
  | x :: xs, h => by
    simp only [List.all_cons]
    rw [h x (by simp), list_all_congr p q xs fun y hy => h y (by simp [hy])]

/-- Bytes of a 12-byte descriptor placed right after a prefix. -/
theorem b8_desc (pre d rest : List Nat) (hlen : d.length = 12)
    (hlt : ∀ x ∈ d, x < 256) (i : Nat) (hi : i < 12) :
    b8 (pre ++ (d ++ rest)) (pre.length + i) = d.getD i 0 := by
  rw [b8_append_add]
  unfold b8
  rw [List.getD_append _ _ _ _ (by omega)]
  rw [List.getD_eq_getElem _ _ (by omega)]
  exact Nat.mod_eq_of_lt (hlt _ (List.getElem_mem _))

/-- The parser's all-zero test on a descriptor laid out in the buffer equals
the all-zero test on the descriptor itself. -/
theorem allZeroAt_eq_zero12 (pre d rest : List Nat) (hlen : d.length = 12)
    (hlt : ∀ x ∈ d, x < 256) :
    allZeroAt (pre ++ (d ++ rest)) pre.length 12 = zero12 d := by
  unfold allZeroAt zero12
  rw [show min 12 12 = 12 from rfl]
  exact list_all_congr _ _ (List.range 12) fun i hi => by
    rw [b8_desc pre d rest hlen hlt i (List.mem_range.mp hi)]

/-- The entry the parser builds from a descriptor laid out in the buffer is
the entry of the descriptor itself. -/
theorem mkEntry_eq_descEntry (pre d rest : List Nat) (hlen : d.length = 12)
    (hlt : ∀ x ∈ d, x < 256) :
    mkEntry (pre ++ (d ++ rest)) pre.length 12 = descEntry d := by
  unfold mkEntry descEntry
  have h0 : b8 (pre ++ (d ++ rest)) pre.length = d.getD 0 0 := by
    have h := b8_desc pre d rest hlen hlt 0 (by omega)
    simpa using h
  rw [if_pos (by omega : (12 : Nat) ≤ 12), h0,
    b8_desc pre d rest hlen hlt 1 (by omega), b8_desc pre d rest hlen hlt 2 (by omega),
    b8_desc pre d rest hlen hlt 9 (by omega), b8_desc pre d rest hlen hlt 10 (by omega),
    b8_desc pre d rest hlen hlt 11 (by omega)]

/-- Walking a region of consecutive 12-byte descriptors populates exactly the
descriptors that are not skipped, and a descriptor is skipped exactly when its
bytes are all zero and the page type is storage (2). -/
theorem parseDescsF_flatten (t : Nat) (descs : List (List Nat)) :
    ∀ (pre : List Nat) (rem fuel : Nat),
      (∀ d ∈ descs, d.length = 12 ∧ ∀ x ∈ d, x < 256) →
      descs.length ≤ rem → descs.length < fuel →
      parseDescsF (pre ++ descs.flatten) t 12 (pre.length + 12 * descs.length) fuel
          pre.length rem =
        ((descs.filter fun d => !(zero12 d && (t == 2))).map descEntry,
         pre.length + 12 * descs.length,
         rem - (descs.filter fun d => !(zero12 d && (t == 2))).length) := by
  induction descs with
  | nil =>
    intro pre rem fuel _ _ hf
    obtain ⟨f, rfl⟩ : ∃ f, fuel = f + 1 := ⟨fuel - 1, by omega⟩
    rw [parseDescsF]
    rw [if_neg (by simp only [List.length_nil, Nat.mul_zero, Nat.add_zero]; omega)]
    simp
  | cons d ds ih =>
    intro pre rem fuel hall hrem hf
    obtain ⟨f, rfl⟩ : ∃ f, fuel = f + 1 := ⟨fuel - 1, by omega⟩
    obtain ⟨hlen, hlt⟩ := hall d (List.mem_cons_self d ds)
    have hall' : ∀ x ∈ ds, x.length = 12 ∧ ∀ y ∈ x, y < 256 :=
      fun x hx => hall x (List.mem_cons_of_mem d hx)
    have hrem' : ds.length + 1 ≤ rem := by
      simpa using hrem
    have hf' : ds.length + 1 ≤ f + 1 := by
      have := hf
      simp only [List.length_cons] at this
      omega
    rw [parseDescsF]
    rw [if_pos (by simp only [List.length_cons]; constructor <;> omega)]
    rw [if_neg (by omega : ¬ (12 : Nat) < 2)]
    rw [show (d :: ds).flatten = d ++ ds.flatten from rfl]
    rw [allZeroAt_eq_zero12 pre d ds.flatten hlen hlt]
    have hassoc : pre ++ (d ++ ds.flatten) = (pre ++ d) ++ ds.flatten :=
      (List.append_assoc pre d ds.flatten).symm
    have hplen : pre.length + 12 = (pre ++ d).length := by
      simp [List.length_append, hlen]
    have hpe : pre.length + 12 * (d :: ds).length = (pre ++ d).length + 12 * ds.length := by
      simp only [List.length_cons, List.length_append, hlen]
      omega
    by_cases hz : (zero12 d && (t == 2)) = true
    · rw [if_pos hz]
      rw [hassoc, hpe, hplen]
      rw [ih (pre ++ d) rem f hall' (by omega) (by omega)]
      rw [List.filter_cons_of_neg (by rw [hz]; decide)]
    · have hb : (zero12 d && (t == 2)) = false := Bool.eq_false_iff.mpr hz
      rw [if_neg hz]
      dsimp only
      rw [mkEntry_eq_descEntry pre d ds.flatten hlen hlt]
      rw [hassoc, hpe, hplen]
      rw [ih (pre ++ d) (rem - 1) f hall' (by omega) (by omega)]
      rw [List.filter_cons_of_pos (by rw [hb]; decide)]
      rw [List.map_cons, List.length_cons]
      have hsub : rem - 1 - (ds.filter fun d => !(zero12 d && (t == 2))).length =
          rem - ((ds.filter fun d => !(zero12 d && (t == 2))).length + 1) := by omega
      rw [hsub]

/-- The READ ELEMENT STATUS allocation is always at least 4096 bytes. -/
theorem res_alloc_ge (count : Nat) : 4096 ≤ res_alloc count := by
  unfold res_alloc
  dsimp only
  split_ifs <;> omega

/-- The page loop yields nothing once its guard fails. -/
theorem parsePagesF_stop (buf : List Nat) (end_ fuel offset rem : Nat)
    (h : ¬ (offset + 8 ≤ end_ ∧ 0 < rem)) :
    parsePagesF buf end_ fuel offset rem = [] := by
  cases fuel with
  | zero => simp [parsePagesF]
  | succ f => rw [parsePagesF, if_neg h]

set_option maxRecDepth 4000 in
/-- Claim C6: on a single-page response, read_element_status populates exactly
the descriptors that are not (all-zero and in a storage-type page): a
descriptor whose 12 bytes are all zero is skipped if and only if the page type
is storage (0x02); all-zero descriptors in transport (0x01), import/export
(0x03) or drive (0x04) pages are still populated. -/
theorem c6_theorem (t : Nat) (descs : List (List Nat)) (count max_statuses : Nat)
    (ht : t = 1 ∨ t = 2 ∨ t = 3 ∨ t = 4)
    (hall : ∀ d ∈ descs, d.length = 12 ∧ ∀ x ∈ d, x < 256)
    (hmax : descs.length ≤ max_statuses)
    (hsize : 16 + 12 * descs.length ≤ 4096) :
    (scsi_read_element_status 0 (singlePageResponse t descs) count true max_statuses).2 =
      (descs.filter fun d => !(zero12 d && (t == 2))).map descEntry := by
  have halloc := res_alloc_ge count
  have hrb : res_report_bytes (singlePageResponse t descs) = 8 + 12 * descs.length := by
    unfold res_report_bytes
    have h5 : b8 (singlePageResponse t descs) 5 = 0 := rfl
    have h6 : b8 (singlePageResponse t descs) 6 =
        (8 + 12 * descs.length) / 256 % 256 % 256 := rfl
    have h7 : b8 (singlePageResponse t descs) 7 = (8 + 12 * descs.length) % 256 % 256 := rfl
    have h6a : b8 (singlePageResponse t descs) 6 = (8 + 12 * descs.length) / 256 := by
      rw [h6]; omega
    have h7a : b8 (singlePageResponse t descs) 7 = (8 + 12 * descs.length) % 256 := by
      rw [h7]; omega
    rw [h5, h6a, h7a]
    omega
  have htyp : b8 (singlePageResponse t descs) 8 &&& 0x0F = t := by
    have h8 : b8 (singlePageResponse t descs) 8 = t % 256 := rfl
    rw [h8]
    rcases ht with h | h | h | h <;> subst h <;> rfl
  have hdl : b8 (singlePageResponse t descs) 10 * 256 + b8 (singlePageResponse t descs) 11 =
      12 := by
    have h10 : b8 (singlePageResponse t descs) 10 = 0 := rfl
    have h11 : b8 (singlePageResponse t descs) 11 = 12 := rfl
    rw [h10, h11]
  have hpb : b8 (singlePageResponse t descs) 13 * 65536 +
      b8 (singlePageResponse t descs) 14 * 256 + b8 (singlePageResponse t descs) 15 =
      12 * descs.length := by
    have h13 : b8 (singlePageResponse t descs) 13 = 0 := rfl
    have h14 : b8 (singlePageResponse t descs) 14 =
        (12 * descs.length) / 256 % 256 % 256 := rfl
    have h15 : b8 (singlePageResponse t descs) 15 = (12 * descs.length) % 256 % 256 := rfl
    have h14a : b8 (singlePageResponse t descs) 14 = (12 * descs.length) / 256 := by
      rw [h14]; omega
    have h15a : b8 (singlePageResponse t descs) 15 = (12 * descs.length) % 256 := by
      rw [h15]; omega
    rw [h13, h14a, h15a]
    omega
  unfold scsi_read_element_status
  rw [if_neg (by omega : ¬ (0 : Int) ≠ 0)]
  dsimp only
  rw [hrb]
  rw [if_neg (by omega : ¬ 8 + 12 * descs.length = 0)]
  rw [if_neg (by simp : ¬ true = false)]
  have hend : min (8 + (8 + 12 * descs.length)) (res_alloc count) = 16 + 12 * descs.length := by
    omega
  rw [hend]
  dsimp only
  cases descs with
  | nil =>
    simp only [List.length_nil, Nat.mul_zero, Nat.add_zero, List.filter_nil, List.map_nil]
    rw [show (16 : Nat) = 15 + 1 from rfl]
    rw [parsePagesF]
    by_cases hm : 0 < max_statuses
    · rw [if_pos ⟨by omega, hm⟩]
      dsimp only
      rw [hdl, hpb]
      rw [if_pos (Or.inr (by simp))]
    · rw [if_neg (by omega)]
  | cons d ds =>
    have hm : 0 < max_statuses := by
      simp only [List.length_cons] at hmax
      omega
    have hfe : 16 + 12 * (d :: ds).length = (15 + 12 * (d :: ds).length) + 1 := by omega
    rw [hfe, parsePagesF]
    rw [if_pos ⟨by omega, hm⟩]
    dsimp only
    rw [htyp, hdl, hpb]
    rw [if_neg (by simp only [List.length_cons]; omega)]
    have hpe : min (8 + 8 + 12 * (d :: ds).length) (15 + 12 * (d :: ds).length + 1) =
        (respHeader t (d :: ds)).length + 12 * (d :: ds).length := by
      rw [respHeader_length]
      omega
    rw [hpe]
    rw [show (8 : Nat) + 8 = (respHeader t (d :: ds)).length from by rw [respHeader_length]]
    rw [show singlePageResponse t (d :: ds) =
        respHeader t (d :: ds) ++ (d :: ds).flatten from rfl]
    rw [parseDescsF_flatten t (d :: ds) (respHeader t (d :: ds)) max_statuses
        (15 + 12 * (d :: ds).length) hall hmax
        (by simp only [List.length_cons]; omega)]
    dsimp only
    rw [Nat.max_self]
    rw [parsePagesF_stop _ _ _ _ _ (by rw [respHeader_length]; omega)]
    rw [List.append_nil]

/-- Two 12-byte descriptors for the C6 witness: one all-zero, one carrying
address 0x0005, a full flag, and a valid source 0x0007. -/
def c6wdescs : List (List Nat) :=
  [[0, 0, 0, 0, 0, 0, 0, 0, 0, 0, 0, 0],
   [0, 5, 1, 0, 0, 0, 0, 0, 0, 128, 0, 7]]

/-- Claim C6, witness: a storage page (type 2) holding an all-zero descriptor
and a populated one - only the non-zero descriptor is returned. -/
theorem c6_witness :
    ((2 : Nat) = 1 ∨ (2 : Nat) = 2 ∨ (2 : Nat) = 3 ∨ (2 : Nat) = 4) ∧
    (∀ d ∈ c6wdescs, d.length = 12 ∧ ∀ x ∈ d, x < 256) ∧
    c6wdescs.length ≤ 5 ∧ 16 + 12 * c6wdescs.length ≤ 4096 ∧
    (scsi_read_element_status 0 (singlePageResponse 2 c6wdescs) 0 true 5).2 =
      (c6wdescs.filter fun d => !(zero12 d && ((2 : Nat) == 2))).map descEntry :=
  ⟨by decide, by decide, by decide, by decide,
   c6_theorem 2 c6wdescs 0 5 (by decide) (by decide) (by decide) (by decide)⟩

end Discbot
